import Mathlib

/-!
Verification of the `pictureframe` API client/server generator
(`crates/api-client-server-macros/src/lib.rs`) and the server result
conversion (`src/app.rs`), modelled as a shallow embedding.

The generator is a pure transform from parsed method signatures to two
artifacts (axum server handlers plus a router, and a typed HTTP client).
Rust panics inside the proc macro are generation-time failures and are
modelled with `Except String`; a `.error` result means the build aborts
with that diagnostic and no artifact is emitted.
-/

namespace Pictureframe

/-! ## Rust type model (the fragment of `syn::Type` the generator inspects)

`extract_inner_type` looks only at: whether the type is a path type, the
last path segment, whether that segment has angle-bracketed generic
arguments, and whether the first such argument is a type argument.
Everything else is carried opaquely.
-/

mutual

/-- Model of `syn::Type`: a path type (sequence of segments), a reference,
or a tuple.  Other `syn` variants behave like `reference`/`tuple` for the
generator (it only ever destructures `Type::Path`). -/
inductive RustType where
  | path (segments : List Segment)
  | reference (inner : RustType)
  | tuple (elems : List RustType)

/-- Model of `syn::PathSegment`: an identifier plus its arguments. -/
inductive Segment where
  | mk (ident : String) (arguments : PathArguments)

/-- Model of `syn::PathArguments`. -/
inductive PathArguments where
  | noArgs
  | angleBracketed (args : List GenericArg)
  | parenthesized

/-- Model of `syn::GenericArgument`: a lifetime, a type argument, or a
const argument (the generator only distinguishes `Type` from the rest). -/
inductive GenericArg where
  | lifetime (name : String)
  | typeArg (ty : RustType)
  | constArg (e : String)

end

/-- The identifier of a path segment. -/
def Segment.ident : Segment → String
  | .mk i _ => i

/-- The arguments of a path segment. -/
def Segment.arguments : Segment → PathArguments
  | .mk _ a => a

/-- `extract_inner_type`: extract the inner `T` from `MyAppResult<T>` (or
any single-generic wrapper); returns the input unchanged when the shape
does not match.  Transcribed from `extract_inner_type` in
`api-client-server-macros/src/lib.rs`. -/
def extract_inner_type (ty : RustType) : RustType :=
  match ty with
  | .path segments =>
    match segments.getLast? with
    | some segment =>
      match segment.arguments with
      | .angleBracketed args =>
        match args.head? with
        | some (.typeArg inner) => inner
        | _ => ty
      | _ => ty
    | Option.none => ty
  | _ => ty

/-- `path_to_axum`: axum 0.8+ uses the same placeholder syntax, so the
path is passed through unchanged. -/
def path_to_axum (path : String) : String := path

/-! ## Parameter classification and handler parsing -/

/-- Parameter roles, from `enum ParamKind` in the macro crate. -/
inductive ParamKind where
  | Body
  | Path
  | Query
deriving DecidableEq, Repr

/-- One parsed handler parameter (`struct HandlerParam`). -/
structure HandlerParam where
  name : String
  ty : RustType
  kind : ParamKind

/-- Arguments of the `#[api_handler(method = "...", path = "...")]`
attribute (`struct ApiHandlerArgs`). -/
structure ApiHandlerArgs where
  method : String
  path : String

/-- A raw non-receiver method parameter as the macro sees it: the
identifier, the type, and the identifiers of its attached attributes. -/
structure RawParam where
  name : String
  ty : RustType
  attrs : List String

/-- A raw annotated method as the macro sees it: name, the
`#[api_handler]` attribute payload if present, the typed non-receiver
parameters, and the declared return type (`Option.none` for `-> ()`
defaulted signatures). -/
structure RawMethod where
  fn_name : String
  api_handler : Option ApiHandlerArgs
  params : List RawParam
  output : Option RustType

/-- A fully parsed handler method (`struct ParsedHandler`). -/
structure ParsedHandler where
  fn_name : String
  method : String
  path : String
  params : List HandlerParam
  return_type : RustType

/-- `take_param_attr`: scan the attribute list for the first role marker
`#[body]` / `#[path]` / `#[query]`. -/
def take_param_attr : List String → Option ParamKind
  | [] => Option.none
  | a :: rest =>
    if a == "body" then some ParamKind.Body
    else if a == "path" then some ParamKind.Path
    else if a == "query" then some ParamKind.Query
    else take_param_attr rest

/-- Rust `str::to_uppercase` restricted to its ASCII behaviour, which is
all the HTTP-method tokens exercise. -/
def ascii_upper (s : String) : String := String.mk (s.data.map Char.toUpper)

/-- Rust `str::to_lowercase` restricted to its ASCII behaviour. -/
def ascii_lower (s : String) : String := String.mk (s.data.map Char.toLower)

/-- The panic message raised by `parse_handler` when a parameter has no
role marker. -/
def missing_role_msg (param fn : String) : String :=
  "Parameter `" ++ param ++ "` in `" ++ fn ++
    "` must be annotated with #[body], #[path], or #[query]"

/-- The panic message raised by `parse_handler` when the method has no
declared return type. -/
def missing_return_msg (fn : String) : String :=
  "Handler `" ++ fn ++ "` must have a return type"

/-- The parameter-classification loop of `parse_handler`: each parameter
must carry a role marker; the first one without a marker aborts
generation with `missing_role_msg`. -/
def classify_params (fn : String) : List RawParam → Except String (List HandlerParam)
  | [] => Except.ok []
  | p :: rest =>
    match take_param_attr p.attrs with
    | Option.none => Except.error (missing_role_msg p.name fn)
    | some k =>
      match classify_params fn rest with
      | Except.error e => Except.error e
      | Except.ok hs => Except.ok (⟨p.name, p.ty, k⟩ :: hs)

/-- `parse_handler`: returns `Option.none` for methods without an
`#[api_handler]` attribute; otherwise classifies the parameters, requires
a declared return type, and uppercases the HTTP method token. -/
def parse_handler (m : RawMethod) : Except String (Option ParsedHandler) :=
  match m.api_handler with
  | Option.none => Except.ok Option.none
  | some args =>
    match classify_params m.fn_name m.params with
    | Except.error e => Except.error e
    | Except.ok params =>
      match m.output with
      | Option.none => Except.error (missing_return_msg m.fn_name)
      | some return_type =>
        Except.ok (some
          { fn_name := m.fn_name
            method := ascii_upper args.method
            path := args.path
            params := params
            return_type := return_type })

/-! ## Server binding generator (`generate_axum_handler`, `generate_router`) -/

/-- One extractor in a generated axum handler's argument list. -/
inductive Extractor where
  | state (struct_name : String)
  | pathSingle (name : String) (ty : RustType)
  | pathTuple (params : List (String × RustType))
  | query (name : String) (ty : RustType)
  | json (name : String) (ty : RustType)

/-- A generated free-standing axum handler: its function name, its
extractor list (in argument order), and the argument names of the call to
the underlying service method (in call order). -/
structure AxumHandler where
  handler_fn_name : String
  extractors : List Extractor
  call_args : List String

/-- `generate_axum_handler`: the state extractor comes first; path
parameters next (a single extractor for exactly one, a tuple in
declaration order for more than one); then one query extractor per
query parameter; then one JSON extractor per body parameter.  The call
arguments are pushed in the same loops, so they are grouped
path-then-query-then-body. -/
def generate_axum_handler (struct_name : String) (h : ParsedHandler) : AxumHandler :=
  let path_params := h.params.filter (fun p => p.kind == ParamKind.Path)
  let pathPieces : List Extractor × List String :=
    match path_params with
    | [] => ([], [])
    | [p] => ([Extractor.pathSingle p.name p.ty], [p.name])
    | ps => ([Extractor.pathTuple (ps.map (fun p => (p.name, p.ty)))], ps.map (fun p => p.name))
  let query_params := h.params.filter (fun p => p.kind == ParamKind.Query)
  let body_params := h.params.filter (fun p => p.kind == ParamKind.Body)
  { handler_fn_name := "__axum_handler_" ++ h.fn_name
    extractors :=
      Extractor.state struct_name ::
        (pathPieces.1
          ++ query_params.map (fun p => Extractor.query p.name p.ty)
          ++ body_params.map (fun p => Extractor.json p.name p.ty))
    call_args :=
      pathPieces.2
        ++ query_params.map (fun p => p.name)
        ++ body_params.map (fun p => p.name) }

/-- One `.route(path, method_fn(handler))` call in the generated router. -/
structure RouteCall where
  route_path : String
  method_fn : String
  handler_fn_name : String

/-- The five supported routing functions, keyed by uppercase HTTP method
token; anything else panics with `Unsupported HTTP method`. -/
def method_routing_fn (m : String) : Except String String :=
  if m == "GET" then Except.ok "get"
  else if m == "POST" then Except.ok "post"
  else if m == "PUT" then Except.ok "put"
  else if m == "DELETE" then Except.ok "delete"
  else if m == "PATCH" then Except.ok "patch"
  else Except.error ("Unsupported HTTP method: " ++ m)

/-- `generate_router`: one route call per handler, failing at the first
handler whose method token is unsupported. -/
def generate_router : List ParsedHandler → Except String (List RouteCall)
  | [] => Except.ok []
  | h :: rest =>
    match method_routing_fn h.method with
    | Except.error e => Except.error e
    | Except.ok mfn =>
      match generate_router rest with
      | Except.error e => Except.error e
      | Except.ok rs =>
        Except.ok ({ route_path := path_to_axum h.path
                     method_fn := mfn
                     handler_fn_name := "__axum_handler_" ++ h.fn_name } :: rs)

/-! ## Client binding generator (`generate_client`) -/

/-- One parameter of a generated client method: by value for path
parameters, by reference (`byRef = true`) for body and query parameters. -/
structure ClientFnParam where
  name : String
  ty : RustType
  byRef : Bool

/-- The mutable accumulator of the parameter loop in `generate_client`:
`fn_params` and `path_format_args` grow, while `body_arg` and
`query_arg` are overwritten (so the last body/query parameter wins). -/
structure ClientParamAcc where
  fn_params : List ClientFnParam
  path_format_args : List String
  body_arg : Option String
  query_arg : Option String

/-- One iteration of the parameter loop in `generate_client`. -/
def client_param_step (acc : ClientParamAcc) (p : HandlerParam) : ClientParamAcc :=
  match p.kind with
  | ParamKind.Path =>
    { acc with
        fn_params := acc.fn_params ++ [⟨p.name, p.ty, false⟩]
        path_format_args := acc.path_format_args ++ [p.name] }
  | ParamKind.Body =>
    { acc with
        fn_params := acc.fn_params ++ [⟨p.name, p.ty, true⟩]
        body_arg := some p.name }
  | ParamKind.Query =>
    { acc with
        fn_params := acc.fn_params ++ [⟨p.name, p.ty, true⟩]
        query_arg := some p.name }

/-- The full parameter loop of `generate_client`. -/
def client_params (params : List HandlerParam) : ClientParamAcc :=
  params.foldl client_param_step ⟨[], [], Option.none, Option.none⟩

/-- One generated client method. -/
structure ClientMethod where
  fn_name : String
  fn_params : List ClientFnParam
  path : String
  path_format_args : List String
  body_arg : Option String
  query_arg : Option String
  method_lower : String
  inner_return_type : RustType

/-- The per-handler part of `generate_client`. -/
def generate_client_method (h : ParsedHandler) : ClientMethod :=
  let acc := client_params h.params
  { fn_name := h.fn_name
    fn_params := acc.fn_params
    path := h.path
    path_format_args := acc.path_format_args
    body_arg := acc.body_arg
    query_arg := acc.query_arg
    method_lower := ascii_lower h.method
    inner_return_type := extract_inner_type h.return_type }

/-- The generated client artifact: struct name, shared error type name,
and one method per handler. -/
structure ClientArtifact where
  client_name : String
  error_name : String
  methods : List ClientMethod

/-- `generate_client`: emits the client struct, one shared error type,
and one method per handler. -/
def generate_client (struct_name : String) (handlers : List ParsedHandler) : ClientArtifact :=
  { client_name := struct_name ++ "Client"
    error_name := struct_name ++ "ClientError"
    methods := handlers.map generate_client_method }

/-! ## The whole `#[api]` transform -/

/-- Everything the `api` attribute macro emits for one impl block. -/
structure Artifact where
  axum_handlers : List AxumHandler
  router : List RouteCall
  client : ClientArtifact

/-- The parse loop of the `api` macro over the impl block's methods: a
panic in `parse_handler` aborts the build at the first offending
method. -/
def parse_all : List RawMethod → Except String (List (Option ParsedHandler))
  | [] => Except.ok []
  | m :: rest =>
    match parse_handler m with
    | Except.error e => Except.error e
    | Except.ok h =>
      match parse_all rest with
      | Except.error e => Except.error e
      | Except.ok hs => Except.ok (h :: hs)

/-- The `api` proc macro as a pure transform: parse every method (a panic
in `parse_handler` aborts the build at the first offending method), then
generate the handlers, the router (a panic in `generate_router` also
aborts the build), and the client.  A `.error` result models a proc-macro
panic: the build fails with that diagnostic and no artifact is emitted. -/
def api_transform (struct_name : String) (methods : List RawMethod) : Except String Artifact :=
  match parse_all methods with
  | Except.error e => Except.error e
  | Except.ok parsed =>
    let handlers := parsed.filterMap id
    let axum_handlers := handlers.map (generate_axum_handler struct_name)
    match generate_router handlers with
    | Except.error e => Except.error e
    | Except.ok router =>
      Except.ok { axum_handlers := axum_handlers
                  router := router
                  client := generate_client struct_name handlers }

/-! ## Runtime semantics of a generated client method

The generated URL expression is
`format!(concat!("{}", path), self.base_url, name1 = name1, ...)` when
there are path parameters, and `format!("{}{}", self.base_url, path)`
otherwise; then, if a query parameter was captured, its
`serde_urlencoded` encoding is appended after `?` unless it is empty.
`rust_format` models the Rust `format!` macro on such templates: `{}`
consumes the next positional argument and `{name}` is resolved by name
against the named arguments. -/

/-- The opening brace character. -/
def lbrace : Char := Char.ofNat 123

/-- The closing brace character. -/
def rbrace : Char := Char.ofNat 125

/-- Split a character list at the first closing brace, dropping it. -/
def split_at_close : List Char → List Char × List Char
  | [] => ([], [])
  | c :: rest =>
    if c == rbrace then ([], rest)
    else
      let p := split_at_close rest
      (c :: p.1, p.2)

/-- Fuel-indexed core of `rust_format`: each step consumes at least one
template character, so `template.length` fuel suffices. -/
def format_chars : Nat → List Char → List String → List (String × String) → List Char
  | 0, _, _, _ => []
  | Nat.succ _, [], _, _ => []
  | Nat.succ fuel, c :: rest, positional, named =>
    if c == lbrace then
      match rest with
      | [] => []
      | c2 :: rest2 =>
        if c2 == lbrace then
          c :: format_chars fuel rest2 positional named
        else
          let p := split_at_close rest
          if p.1.isEmpty then
            match positional with
            | v :: vs => v.data ++ format_chars fuel p.2 vs named
            | [] => format_chars fuel p.2 [] named
          else
            match named.lookup (String.mk p.1) with
            | some v => v.data ++ format_chars fuel p.2 positional named
            | Option.none => format_chars fuel p.2 positional named
    else if c == rbrace then
      match rest with
      | [] => [c]
      | c2 :: rest2 =>
        if c2 == rbrace then c :: format_chars fuel rest2 positional named
        else c :: format_chars fuel rest positional named
    else
      c :: format_chars fuel rest positional named

/-- Rust `format!` on a template with positional `{}` and named `{name}`
placeholders. -/
def rust_format (template : String) (positional : List String)
    (named : List (String × String)) : String :=
  String.mk (format_chars template.length template.data positional named)

/-- The `base_url_expr` of a generated client method, evaluated at
runtime: `base` is `self.base_url` and `pathVals` maps each path
parameter name to the `Display` rendering of the argument passed for it.
With no path parameters the path string is a formatting *argument*, so it
is appended verbatim; otherwise it is part of the format string and its
`{name}` placeholders are resolved by name against the named arguments
`name = name` pushed in declaration order. -/
def client_base_url (cm : ClientMethod) (base : String) (pathVals : String → String) : String :=
  if cm.path_format_args.isEmpty then
    base ++ cm.path
  else
    rust_format (String.mk [lbrace, rbrace] ++ cm.path) [base]
      (cm.path_format_args.map (fun n => (n, pathVals n)))

/-- The full `url_expr` of a generated client method: if a query
parameter was captured, `queryEnc` gives the `serde_urlencoded` encoding
of the argument passed for it; an empty encoding leaves the base URL
unchanged, a non-empty one is appended after `?`. -/
def client_url (cm : ClientMethod) (base : String) (pathVals : String → String)
    (queryEnc : String → String) : String :=
  let b := client_base_url cm base pathVals
  match cm.query_arg with
  | Option.none => b
  | some q =>
    let qs := queryEnc q
    if qs.isEmpty then b else b ++ "?" ++ qs

/-- A JSON value (the fragment needed to state body contents). -/
inductive Json where
  | null
  | bool (b : Bool)
  | num (n : Int)
  | str (s : String)
  | arr (elems : List Json)
  | obj (fields : List (String × Json))

/-- The request a generated client method issues: HTTP method, the built
URL, and the JSON payload attached when a body argument exists
(`bodyVals` maps the body parameter name to the serialization of the
argument passed for it). -/
structure ClientRequest where
  method : String
  url : String
  body : Option Json

/-- Assemble the request issued by one client method call. -/
def client_request (cm : ClientMethod) (base : String) (pathVals : String → String)
    (queryEnc : String → String) (bodyVals : String → Json) : ClientRequest :=
  { method := cm.method_lower
    url := client_url cm base pathVals queryEnc
    body := cm.body_arg.map bodyVals }

/-! ## Runtime semantics of the generated client response handling -/

/-- What the transport can observe for one issued request: the send can
fail outright, or a response arrives with a status code, a body text
(`Option.none` when the text is unreadable), and the result of parsing
the body as the expected payload type. -/
inductive TransportOutcome (T : Type) where
  | sendFailure (cause : String)
  | response (status : Nat) (text : Option String) (parsed : Except String T)

/-- The shared per-service client error type
(`enum {Struct}ClientError`). -/
inductive ClientError where
  | request (cause : String)
  | api (status : Nat) (body : String)
deriving DecidableEq, Repr

/-- `reqwest::StatusCode::is_success`: the 2xx range. -/
def status_is_success (s : Nat) : Bool := 200 ≤ s && s < 300

/-- The response handling of every generated client method: a send
failure maps to `ClientError.request`; a non-success status maps to
`ClientError.api` with the body text (empty when unreadable); a success
status returns the parsed payload, with a parse failure mapped to
`ClientError.request`. -/
def client_call {T : Type} (o : TransportOutcome T) : Except ClientError T :=
  match o with
  | .sendFailure cause => Except.error (ClientError.request cause)
  | .response status text parsed =>
    if !(status_is_success status) then
      Except.error (ClientError.api status (text.getD ""))
    else
      match parsed with
      | Except.ok v => Except.ok v
      | Except.error e => Except.error (ClientError.request e)

/-! ## Server-side result conversion (`APIResult::into_response` in `src/app.rs`) -/

/-- The three-variant handler result type from `src/app.rs`. -/
inductive APIResult (T : Type) where
  | ok (val : T)
  | notFound (msg : String)
  | internalError (msg : String)

/-- An HTTP response as produced by this conversion: a status code and a
JSON body. -/
structure HttpResponse where
  status : Nat
  body : Json

/-- `APIResult::into_response`, with `ser` standing for the `Serialize`
instance of the payload type: `Ok` serializes the payload at status 200,
`NotFound` and `InternalError` produce `{"error": msg}` bodies at 404
and 500. -/
def APIResult.into_response {T : Type} (ser : T → Json) : APIResult T → HttpResponse
  | .ok val => { status := 200, body := ser val }
  | .notFound msg => { status := 404, body := Json.obj [("error", Json.str msg)] }
  | .internalError msg => { status := 500, body := Json.obj [("error", Json.str msg)] }

/-! ## Spec-side definitions

These follow the wording of the specification (not the source); the
theorems below compare them against the transcribed source definitions.
-/

instance : Inhabited HandlerParam := ⟨⟨"", RustType.tuple [], ParamKind.Body⟩⟩

/-- Spec wording of the extractor order (claim C4): the shared
service-instance state first; then Path-role parameters (a single
extractor if there is exactly one, a positional tuple in declaration
order if more than one); then one Query extractor per Query-role
parameter; then the Body (Json) extractors last. -/
def extractors_spec (struct_name : String) (h : ParsedHandler) : List Extractor :=
  let pathPs := h.params.filter (fun p => p.kind == ParamKind.Path)
  let pathPart : List Extractor :=
    if pathPs.length = 1 then
      [Extractor.pathSingle (pathPs.headI).name (pathPs.headI).ty]
    else if 1 < pathPs.length then
      [Extractor.pathTuple (pathPs.map (fun p => (p.name, p.ty)))]
    else []
  Extractor.state struct_name ::
    (pathPart
      ++ (h.params.filter (fun p => p.kind == ParamKind.Query)).map
          (fun p => Extractor.query p.name p.ty)
      ++ (h.params.filter (fun p => p.kind == ParamKind.Body)).map
          (fun p => Extractor.json p.name p.ty))

/-- Spec wording of URL building (claim C5): substitute the Path-role
argument values into the template's placeholders in parameter
declaration order, i.e. the k-th placeholder receives the k-th declared
Path argument, regardless of the placeholder's name. -/
def subst_decl_order_chars : Nat → List Char → List String → List Char
  | 0, _, _ => []
  | Nat.succ _, [], _ => []
  | Nat.succ fuel, c :: rest, vals =>
    if c == lbrace then
      let p := split_at_close rest
      match vals with
      | v :: vs => v.data ++ subst_decl_order_chars fuel p.2 vs
      | [] => subst_decl_order_chars fuel p.2 []
    else c :: subst_decl_order_chars fuel rest vals

/-- Spec wording of URL building (claim C5), assembled with the base. -/
def spec_url_decl_order (base template : String) (vals : List String) : String :=
  base ++ String.mk (subst_decl_order_chars template.length template.data vals)

/-- Spec wording of result-type unwrapping (claim C10): the first
generic *type* argument of the last path segment, when one exists. -/
def first_type_arg (ty : RustType) : Option RustType :=
  match ty with
  | .path segs =>
    match segs.getLast? with
    | some seg =>
      match seg.arguments with
      | .angleBracketed args =>
        args.findSome? (fun a =>
          match a with
          | .typeArg t => some t
          | _ => Option.none)
      | _ => Option.none
    | Option.none => Option.none
  | _ => Option.none

/-- Spec wording of `extract_inner_type` as claimed in C10: return the
first generic type argument of the last path segment when one exists,
and the input type unchanged otherwise. -/
def extract_inner_type_claimed (ty : RustType) : RustType :=
  match first_type_arg ty with
  | some t => t
  | Option.none => ty

/-! ## Theorems -/

/-- **C3.** For every serializable payload type and every `APIResult`
value, the conversion to a response yields: `Ok v` → status 200 with
`v` serialized as the body; `NotFound msg` → status 404 with body
`{"error": msg}`; `InternalError msg` → status 500 with body
`{"error": msg}`; and no status other than 200/404/500 is produced. -/
theorem apiresult_into_response_mapping :
    ∀ (T : Type) (ser : T → Json),
      (∀ v, (APIResult.ok v).into_response ser = ⟨200, ser v⟩) ∧
      (∀ m, (APIResult.notFound (T := T) m).into_response ser =
        ⟨404, Json.obj [("error", Json.str m)]⟩) ∧
      (∀ m, (APIResult.internalError (T := T) m).into_response ser =
        ⟨500, Json.obj [("error", Json.str m)]⟩) ∧
      (∀ r : APIResult T, (r.into_response ser).status = 200 ∨
        (r.into_response ser).status = 404 ∨ (r.into_response ser).status = 500) := by
  intro T ser
  refine ⟨fun v => rfl, fun m => rfl, fun m => rfl, ?_⟩
  intro r
  cases r <;> simp [APIResult.into_response]

/-- **C8.** Every generated client call returns exactly one of: the
deserialized payload (success status, body parses), a `Request` error
carrying the cause (send failure, or parse failure on a success status),
or an `Api {status, body}` error for any non-success status with the raw
body text (empty when unreadable). -/
theorem client_call_outcomes :
    ∀ (T : Type) (o : TransportOutcome T),
      (∀ c, o = TransportOutcome.sendFailure c →
        client_call o = Except.error (ClientError.request c)) ∧
      (∀ s t p, o = TransportOutcome.response s t p → status_is_success s = false →
        client_call o = Except.error (ClientError.api s (t.getD ""))) ∧
      (∀ s t v, o = TransportOutcome.response s t (Except.ok v) → status_is_success s = true →
        client_call o = Except.ok v) ∧
      (∀ s t e, o = TransportOutcome.response s t (Except.error e) → status_is_success s = true →
        client_call o = Except.error (ClientError.request e)) ∧
      ((∃ v, client_call o = Except.ok v) ∨
        (∃ c, client_call o = Except.error (ClientError.request c)) ∨
        (∃ s b, client_call o = Except.error (ClientError.api s b))) := by
  intro T o
  refine ⟨?_, ?_, ?_, ?_, ?_⟩
  · rintro c rfl; rfl
  · rintro s t p rfl hs; simp [client_call, hs]
  · rintro s t v rfl hs; simp [client_call, hs]
  · rintro s t e rfl hs; simp [client_call, hs]
  · match h : client_call o with
    | Except.ok v => exact Or.inl ⟨v, rfl⟩
    | Except.error (ClientError.request c) => exact Or.inr (Or.inl ⟨c, rfl⟩)
    | Except.error (ClientError.api s b) => exact Or.inr (Or.inr ⟨s, b, rfl⟩)

/-- Closed witness for C8: a 404 response with readable body "missing"
yields the `Api` error variant with that status and body. -/
theorem client_call_outcomes_witness :
    client_call (TransportOutcome.response (T := Nat) 404 (some "missing")
        (Except.error "parse")) =
      Except.error (ClientError.api 404 "missing") :=
  (client_call_outcomes Nat _).2.1 404 (some "missing") (Except.error "parse") rfl rfl

/-- **C4.** For every annotated method, the generated handler's
extractor list is in the fixed order: the shared service-instance State
first; then Path-role parameters (a single Path extractor if exactly
one, a positional tuple in declaration order if more than one); then one
Query extractor per Query-role parameter; then the Body (Json)
extractors last. -/
theorem generate_axum_handler_extractor_order :
    ∀ (struct_name : String) (h : ParsedHandler),
      (generate_axum_handler struct_name h).extractors = extractors_spec struct_name h := by
  intro s h
  cases hp : h.params.filter (fun p => p.kind == ParamKind.Path) with
  | nil => simp [generate_axum_handler, extractors_spec, hp]
  | cons p rest =>
    cases rest with
    | nil => simp [generate_axum_handler, extractors_spec, hp, List.headI]
    | cons q rest2 =>
      simp [generate_axum_handler, extractors_spec, hp]

/-! ### C10: one-level result-type unwrapping -/

/-- The unit type `()`. -/
def ty_unit : RustType := RustType.tuple []

/-- A path type whose last segment's first generic argument is a
lifetime followed by a type argument, i.e. a model of `Foo<'a, ()>`. -/
def foo_lifetime_ty : RustType :=
  RustType.path [Segment.mk "Foo"
    (PathArguments.angleBracketed [GenericArg.lifetime "a", GenericArg.typeArg ty_unit])]

/-- **C10, counterexample.** `extract_inner_type` on `Foo<'a, ()>`
returns the input unchanged even though a first generic type argument
(`()`) exists, so the claim's description (return the first generic type
argument of the last segment whenever one exists; return the input only
for types with no generic arguments or non-path types) is false. -/
theorem extract_inner_type_counterexample :
    extract_inner_type foo_lifetime_ty = foo_lifetime_ty ∧
    first_type_arg foo_lifetime_ty = some ty_unit ∧
    extract_inner_type_claimed foo_lifetime_ty = ty_unit ∧
    extract_inner_type foo_lifetime_ty ≠ extract_inner_type_claimed foo_lifetime_ty := by
  refine ⟨rfl, rfl, rfl, fun hcontra => ?_⟩
  exact RustType.noConfusion (show RustType.path _ = RustType.tuple [] from hcontra)

/-- Unfolding equation of `extract_inner_type` on a path type. -/
theorem extract_inner_type_path_eq (segs : List Segment) :
    extract_inner_type (RustType.path segs) =
      (match segs.getLast? with
       | some segment =>
         (match segment.arguments with
          | PathArguments.angleBracketed args =>
            (match args.head? with
             | some (GenericArg.typeArg inner) => inner
             | _ => RustType.path segs)
          | _ => RustType.path segs)
       | Option.none => RustType.path segs) := rfl

/-- **C10, amended.** `extract_inner_type` is total and returns the
first generic argument of the last path segment when that argument is a
type argument; in every other case (no segments, no angle-bracketed
arguments, a first generic argument that is not a type argument, or a
non-path type) it returns the input type unchanged. -/
theorem extract_inner_type_total_characterization :
    (∀ segs seg args t rest,
        segs.getLast? = some seg →
        seg.arguments = PathArguments.angleBracketed args →
        args = GenericArg.typeArg t :: rest →
        extract_inner_type (RustType.path segs) = t) ∧
    (∀ segs seg,
        segs.getLast? = some seg →
        (∀ args, seg.arguments = PathArguments.angleBracketed args →
          ∀ t rest, args ≠ GenericArg.typeArg t :: rest) →
        extract_inner_type (RustType.path segs) = RustType.path segs) ∧
    (extract_inner_type (RustType.path []) = RustType.path []) ∧
    (∀ t, extract_inner_type (RustType.reference t) = RustType.reference t) ∧
    (∀ ts, extract_inner_type (RustType.tuple ts) = RustType.tuple ts) := by
  refine ⟨?_, ?_, rfl, fun t => rfl, fun ts => rfl⟩
  · intro segs seg args t rest hlast harg hhead
    simp only [extract_inner_type_path_eq, hlast, harg, hhead, List.head?]
  · intro segs seg hlast hother
    cases ha : seg.arguments with
    | noArgs => simp [extract_inner_type_path_eq, hlast, ha]
    | parenthesized => simp [extract_inner_type_path_eq, hlast, ha]
    | angleBracketed args =>
      cases args with
      | nil => simp [extract_inner_type_path_eq, hlast, ha]
      | cons a rest =>
        cases a with
        | lifetime n => simp [extract_inner_type_path_eq, hlast, ha]
        | constArg e => simp [extract_inner_type_path_eq, hlast, ha]
        | typeArg t => exact absurd rfl (hother _ ha t rest)

/-- Closed witness for C10: on a model of `APIResult<()>` the unwrapping
returns `()`. -/
theorem extract_inner_type_total_characterization_witness :
    extract_inner_type (RustType.path [Segment.mk "APIResult"
        (PathArguments.angleBracketed [GenericArg.typeArg ty_unit])]) = ty_unit :=
  extract_inner_type_total_characterization.1
    [Segment.mk "APIResult" (PathArguments.angleBracketed [GenericArg.typeArg ty_unit])]
    (Segment.mk "APIResult" (PathArguments.angleBracketed [GenericArg.typeArg ty_unit]))
    [GenericArg.typeArg ty_unit] ty_unit [] rfl rfl rfl

/-! ### C1: call-argument order of the generated handler -/

/-- Rank of a role in the extraction order path < query < body. -/
def roleRank : ParamKind → Nat
  | ParamKind.Path => 0
  | ParamKind.Query => 1
  | ParamKind.Body => 2

/-- The parameter declaration lists all Path-role parameters before all
Query-role parameters before all Body-role parameters (as every handler
in this repository does). -/
def roleOrdered (params : List HandlerParam) : Prop :=
  params.Pairwise (fun a b => roleRank a.kind ≤ roleRank b.kind)

/-- The call arguments of a generated handler are grouped by role:
path parameters first, then query, then body, each group in declaration
order. -/
theorem generate_axum_handler_call_args_grouped (s : String) (h : ParsedHandler) :
    (generate_axum_handler s h).call_args =
      (h.params.filter (fun p => p.kind == ParamKind.Path)).map (fun p => p.name)
        ++ (h.params.filter (fun p => p.kind == ParamKind.Query)).map (fun p => p.name)
        ++ (h.params.filter (fun p => p.kind == ParamKind.Body)).map (fun p => p.name) := by
  cases hp : h.params.filter (fun p => p.kind == ParamKind.Path) with
  | nil => simp [generate_axum_handler, hp]
  | cons p rest =>
    cases rest with
    | nil => simp [generate_axum_handler, hp]
    | cons q rest2 => simp [generate_axum_handler, hp]

/-- A parameter whose role ranks at least 1 is not a path parameter. -/
theorem kind_ne_path_of_rank (y : HandlerParam) (h : 1 ≤ roleRank y.kind) :
    ¬ y.kind = ParamKind.Path := by
  cases hyk : y.kind <;> simp [roleRank, hyk] at h ⊢

/-- A parameter whose role ranks at least 2 is not a query parameter. -/
theorem kind_ne_query_of_rank (y : HandlerParam) (h : 2 ≤ roleRank y.kind) :
    ¬ y.kind = ParamKind.Query := by
  cases hyk : y.kind <;> simp [roleRank, hyk] at h ⊢

/-- A kind filter over parameters all of other kinds is empty. -/
theorem filter_kind_nil (t : List HandlerParam) (k : ParamKind)
    (h : ∀ y ∈ t, ¬ y.kind = k) : t.filter (fun p => p.kind == k) = [] := by
  rw [List.filter_eq_nil_iff]
  intro y hy
  simp [h y hy]

/-- A role-ordered parameter list is recovered by concatenating its
path, query and body sublists. -/
theorem role_partition (l : List HandlerParam) (hord : roleOrdered l) :
    l.filter (fun p => p.kind == ParamKind.Path)
      ++ l.filter (fun p => p.kind == ParamKind.Query)
      ++ l.filter (fun p => p.kind == ParamKind.Body) = l := by
  induction l with
  | nil => simp
  | cons x t ih =>
    rw [roleOrdered, List.pairwise_cons] at hord
    obtain ⟨hx, ht⟩ := hord
    have ht' := ih ht
    cases hk : x.kind with
    | Path =>
      simp [List.filter_cons, hk, List.append_assoc] at ht' ⊢
      exact ht'
    | Query =>
      have hfp : t.filter (fun p => p.kind == ParamKind.Path) = [] := by
        apply filter_kind_nil
        intro y hy
        have hr := hx y hy
        rw [hk] at hr
        simp only [roleRank] at hr
        exact kind_ne_path_of_rank y hr
      rw [hfp] at ht'
      simp [List.filter_cons, hk, hfp, List.append_assoc] at ht' ⊢
      exact ht'
    | Body =>
      have hr2 : ∀ y ∈ t, 2 ≤ roleRank y.kind := by
        intro y hy
        have hr := hx y hy
        rw [hk] at hr
        simpa only [roleRank] using hr
      have hfp : t.filter (fun p => p.kind == ParamKind.Path) = [] := by
        apply filter_kind_nil
        intro y hy
        exact kind_ne_path_of_rank y (le_trans one_le_two (hr2 y hy))
      have hfq : t.filter (fun p => p.kind == ParamKind.Query) = [] := by
        apply filter_kind_nil
        intro y hy
        exact kind_ne_query_of_rank y (hr2 y hy)
      rw [hfp, hfq] at ht'
      simp [List.filter_cons, hk, hfp, hfq, List.append_assoc] at ht' ⊢
      exact ht'

/-- **C1, amended.** The generated handler calls the underlying service
method with its arguments grouped by role in path-then-query-then-body
extraction order (declaration order within each role); this equals the
method's original declared parameter order exactly when the declaration
already lists Path-role before Query-role before Body-role parameters,
which is the case for every handler in this repository, but not for
every mix and declaration order. -/
theorem generate_axum_handler_call_order :
    ∀ (struct_name : String) (h : ParsedHandler),
      (generate_axum_handler struct_name h).call_args =
        (h.params.filter (fun p => p.kind == ParamKind.Path)).map (fun p => p.name)
          ++ (h.params.filter (fun p => p.kind == ParamKind.Query)).map (fun p => p.name)
          ++ (h.params.filter (fun p => p.kind == ParamKind.Body)).map (fun p => p.name) ∧
      (roleOrdered h.params →
        (generate_axum_handler struct_name h).call_args =
          h.params.map (fun p => p.name)) := by
  intro s h
  refine ⟨generate_axum_handler_call_args_grouped s h, fun hord => ?_⟩
  rw [generate_axum_handler_call_args_grouped s h, ← List.map_append, ← List.map_append,
    role_partition h.params hord]

/-! Fixtures for C1: a handler with the repository's path-then-body
declaration order, and one declaring the body before the path
parameter. -/

/-- The `i32` type. -/
def ty_i32 : RustType := RustType.path [Segment.mk "i32" PathArguments.noArgs]

/-- The `UpdatePhotoRequest` body type. -/
def ty_update_req : RustType :=
  RustType.path [Segment.mk "UpdatePhotoRequest" PathArguments.noArgs]

/-- The `APIResult<()>` return type. -/
def ty_apiresult_unit : RustType :=
  RustType.path [Segment.mk "APIResult"
    (PathArguments.angleBracketed [GenericArg.typeArg ty_unit])]

/-- `update_photo` from `src/app.rs`: `#[path] id`, then `#[body] req`. -/
def h_update_photo : ParsedHandler :=
  { fn_name := "update_photo"
    method := "PUT"
    path := "/api/photos/{id}"
    params := [⟨"id", ty_i32, ParamKind.Path⟩, ⟨"req", ty_update_req, ParamKind.Body⟩]
    return_type := ty_apiresult_unit }

/-- A legal annotated method declaring its Body-role parameter before
its Path-role parameter. -/
def h_body_before_path : ParsedHandler :=
  { fn_name := "submit"
    method := "POST"
    path := "/api/things/{id}"
    params := [⟨"req", ty_update_req, ParamKind.Body⟩, ⟨"id", ty_i32, ParamKind.Path⟩]
    return_type := ty_apiresult_unit }

/-- **C1, counterexample.** For a method declaring its Body-role
parameter before its Path-role parameter, the generated handler calls
the service method with the path argument first — not in the method's
original declared parameter order. -/
theorem generate_axum_handler_call_order_counterexample :
    (generate_axum_handler "App" h_body_before_path).call_args = ["id", "req"] ∧
    h_body_before_path.params.map (fun p => p.name) = ["req", "id"] ∧
    (generate_axum_handler "App" h_body_before_path).call_args ≠
      h_body_before_path.params.map (fun p => p.name) := by
  refine ⟨rfl, rfl, ?_⟩
  decide

/-- Closed witness for C1 (amended): `update_photo` declares path before
body, so the call order equals the declared order. -/
theorem generate_axum_handler_call_order_witness :
    roleOrdered h_update_photo.params ∧
    (generate_axum_handler "App" h_update_photo).call_args =
      h_update_photo.params.map (fun p => p.name) := by
  have hord : roleOrdered h_update_photo.params := by
    simp [roleOrdered, h_update_photo, List.pairwise_cons, roleRank]
  exact ⟨hord, (generate_axum_handler_call_order "App" h_update_photo).2 hord⟩

/-! ### Pipeline lemmas for C2, C6, C7 -/

/-- The correspondence between raw parameters and their classification:
same name, same type, and the role is the parameter's (first) role
marker. -/
def ClassifiedAs (r : RawParam) (hp : HandlerParam) : Prop :=
  hp.name = r.name ∧ hp.ty = r.ty ∧ take_param_attr r.attrs = some hp.kind

/-- When every parameter carries a role marker, classification succeeds
and assigns each parameter the role of its marker. -/
theorem classify_params_ok (fn : String) (ps : List RawParam)
    (h : ∀ p ∈ ps, (take_param_attr p.attrs).isSome = true) :
    ∃ hs, classify_params fn ps = Except.ok hs ∧ List.Forall₂ ClassifiedAs ps hs := by
  induction ps with
  | nil => exact ⟨[], rfl, List.Forall₂.nil⟩
  | cons p rest ih =>
    obtain ⟨k, hk⟩ : ∃ k, take_param_attr p.attrs = some k :=
      Option.isSome_iff_exists.mp (h p (List.mem_cons_self p rest))
    obtain ⟨hs, hok, hrel⟩ := ih (fun q hq => h q (List.mem_cons_of_mem p hq))
    refine ⟨⟨p.name, p.ty, k⟩ :: hs, ?_, List.Forall₂.cons ⟨rfl, rfl, hk⟩ hrel⟩
    simp [classify_params, hk, hok]

/-- Classification fails at the first parameter without a role marker,
with the diagnostic naming that parameter and the method. -/
theorem classify_params_error_first (fn : String) (pre : List RawParam) (p : RawParam)
    (post : List RawParam)
    (hpre : ∀ q ∈ pre, (take_param_attr q.attrs).isSome = true)
    (hp : take_param_attr p.attrs = Option.none) :
    classify_params fn (pre ++ p :: post) = Except.error (missing_role_msg p.name fn) := by
  induction pre with
  | nil => simp [classify_params, hp]
  | cons q rest ih =>
    obtain ⟨k, hk⟩ : ∃ k, take_param_attr q.attrs = some k :=
      Option.isSome_iff_exists.mp (hpre q (List.mem_cons_self q rest))
    have ih' := ih (fun r hr => hpre r (List.mem_cons_of_mem q hr))
    simp [classify_params, hk, ih']

/-- On a supported uppercase method token, `method_routing_fn`
succeeds. -/
theorem method_routing_fn_ok (mtd : String)
    (h : mtd ∈ (["GET", "POST", "PUT", "DELETE", "PATCH"] : List String)) :
    ∃ f, method_routing_fn mtd = Except.ok f := by
  simp only [List.mem_cons, List.mem_singleton] at h
  rcases h with rfl | rfl | rfl | rfl | rfl | h
  · exact ⟨"get", rfl⟩
  · exact ⟨"post", rfl⟩
  · exact ⟨"put", rfl⟩
  · exact ⟨"delete", rfl⟩
  · exact ⟨"patch", rfl⟩
  · exact absurd h (List.not_mem_nil mtd)

/-- Outside the five supported tokens, `method_routing_fn` aborts with
the `Unsupported HTTP method` diagnostic. -/
theorem method_routing_fn_error (mtd : String)
    (h : mtd ∉ (["GET", "POST", "PUT", "DELETE", "PATCH"] : List String)) :
    method_routing_fn mtd = Except.error ("Unsupported HTTP method: " ++ mtd) := by
  simp only [List.mem_cons, List.mem_singleton, not_or] at h
  obtain ⟨h1, h2, h3, h4, h5, _⟩ := h
  simp [method_routing_fn, h1, h2, h3, h4, h5]

/-- `parse_handler` on a fully annotated method with a return type. -/
theorem parse_handler_ok (m : RawMethod) (a : ApiHandlerArgs) (ty : RustType)
    (ha : m.api_handler = some a)
    (hann : ∀ p ∈ m.params, (take_param_attr p.attrs).isSome = true)
    (hty : m.output = some ty) :
    ∃ h, parse_handler m = Except.ok (some h) ∧
      h.fn_name = m.fn_name ∧ h.method = ascii_upper a.method ∧ h.path = a.path ∧
      h.return_type = ty ∧ List.Forall₂ ClassifiedAs m.params h.params := by
  obtain ⟨hs, hok, hrel⟩ := classify_params_ok m.fn_name m.params hann
  refine ⟨{ fn_name := m.fn_name, method := ascii_upper a.method, path := a.path,
            params := hs, return_type := ty }, ?_, rfl, rfl, rfl, rfl, hrel⟩
  simp [parse_handler, ha, hok, hty]

/-- **C7.** For every annotated method: if some non-receiver parameter
carries no role marker, parsing fails at generation time with a
diagnostic whose text names the (first) offending parameter and the
method; otherwise each parameter is classified with exactly the role of
its role marker. -/
theorem parameter_classification :
    ∀ (m : RawMethod) (a : ApiHandlerArgs), m.api_handler = some a →
      ((∀ pre p post,
          m.params = pre ++ p :: post →
          (∀ q ∈ pre, (take_param_attr q.attrs).isSome = true) →
          take_param_attr p.attrs = Option.none →
          parse_handler m = Except.error (missing_role_msg p.name m.fn_name)) ∧
        (∀ ty, m.output = some ty →
          (∀ p ∈ m.params, (take_param_attr p.attrs).isSome = true) →
          ∃ h, parse_handler m = Except.ok (some h) ∧
            List.Forall₂ ClassifiedAs m.params h.params)) := by
  intro m a ha
  constructor
  · intro pre p post hsplit hpre hp
    have herr := classify_params_error_first m.fn_name pre p post hpre hp
    rw [← hsplit] at herr
    simp [parse_handler, ha, herr]
  · intro ty hty hann
    obtain ⟨h, hok, _, _, _, _, hrel⟩ := parse_handler_ok m a ty ha hann hty
    exact ⟨h, hok, hrel⟩

/-- A raw method with a parameter carrying no role marker. -/
def raw_missing_marker : RawMethod :=
  { fn_name := "broken"
    api_handler := some ⟨"GET", "/x"⟩
    params := [⟨"oops", ty_i32, ["allow"]⟩]
    output := some ty_apiresult_unit }

/-- Closed witness for C7: the unannotated parameter `oops` of `broken`
aborts generation with the diagnostic naming both. -/
theorem parameter_classification_witness :
    parse_handler raw_missing_marker =
      Except.error (missing_role_msg "oops" "broken") :=
  (parameter_classification raw_missing_marker ⟨"GET", "/x"⟩ rfl).1
    [] ⟨"oops", ty_i32, ["allow"]⟩ [] rfl (by simp) rfl

/-- **C6.** A method annotation whose HTTP-method token, after
case-folding to uppercase, is outside {GET, POST, PUT, DELETE, PATCH}
makes generation fail with the `Unsupported HTTP method` diagnostic, and
no server or client artifact is emitted (the transform returns an error
instead of an artifact). -/
theorem unsupported_method_rejected :
    ∀ (struct_name : String) (m : RawMethod) (a : ApiHandlerArgs),
      m.api_handler = some a →
      (∀ p ∈ m.params, (take_param_attr p.attrs).isSome = true) →
      m.output.isSome = true →
      ascii_upper a.method ∉ (["GET", "POST", "PUT", "DELETE", "PATCH"] : List String) →
      api_transform struct_name [m] =
        Except.error ("Unsupported HTTP method: " ++ ascii_upper a.method) := by
  intro s m a ha hann hout hbad
  obtain ⟨ty, hty⟩ := Option.isSome_iff_exists.mp hout
  obtain ⟨h, hok, _, hmethod, _, _, _⟩ := parse_handler_ok m a ty ha hann hty
  have hmap : parse_all [m] = Except.ok [some h] := by
    simp [parse_all, hok]
  have hmfn : method_routing_fn h.method =
      Except.error ("Unsupported HTTP method: " ++ ascii_upper a.method) := by
    rw [hmethod]
    exact method_routing_fn_error (ascii_upper a.method) hbad
  have hrouter : generate_router [h] =
      Except.error ("Unsupported HTTP method: " ++ ascii_upper a.method) := by
    simp [generate_router, hmfn]
  simp [api_transform, hmap, hrouter]

/-- A raw method annotated with the unsupported token `trace`. -/
def raw_trace : RawMethod :=
  { fn_name := "trace_it"
    api_handler := some ⟨"trace", "/t"⟩
    params := []
    output := some ty_apiresult_unit }

/-- Closed witness for C6: a `trace` annotation is case-folded to
`TRACE` and rejected during generation with no artifact. -/
theorem unsupported_method_rejected_witness :
    api_transform "App" [raw_trace] =
      Except.error ("Unsupported HTTP method: " ++ ascii_upper "trace") :=
  unsupported_method_rejected "App" raw_trace ⟨"trace", "/t"⟩ rfl
    (by simp [raw_trace]) rfl (by decide)

/-! ### C2: methods with more than one Body-role parameter -/

/-- Whether an extractor is the JSON body extractor. -/
def is_json_extractor : Extractor → Bool
  | Extractor.json _ _ => true
  | _ => false

/-- Query extractors are never JSON extractors. -/
theorem filter_json_map_query (l : List HandlerParam) :
    (l.map (fun p => Extractor.query p.name p.ty)).filter is_json_extractor = [] := by
  induction l with
  | nil => rfl
  | cons x t ih => simp [is_json_extractor, ih]

/-- JSON extractors all pass the JSON filter. -/
theorem filter_json_map_json (l : List HandlerParam) :
    (l.map (fun p => Extractor.json p.name p.ty)).filter is_json_extractor =
      l.map (fun p => Extractor.json p.name p.ty) := by
  induction l with
  | nil => rfl
  | cons x t ih => simp [is_json_extractor, ih]

/-- **C2, amended.** The generator does not validate the at-most-one
Body-role invariant: the generated handler contains one JSON (body)
extractor per Body-role parameter, in declaration order, and for any
fully annotated method with a return type and a supported HTTP-method
token — regardless of how many Body-role parameters it declares —
generation succeeds and emits an artifact; any failure is deferred to
the host compilation of the generated code. -/
theorem multiple_body_params_not_rejected :
    (∀ (struct_name : String) (h : ParsedHandler),
        (generate_axum_handler struct_name h).extractors.filter is_json_extractor =
          (h.params.filter (fun p => p.kind == ParamKind.Body)).map
            (fun p => Extractor.json p.name p.ty)) ∧
    (∀ (struct_name : String) (m : RawMethod) (a : ApiHandlerArgs),
        m.api_handler = some a →
        (∀ p ∈ m.params, (take_param_attr p.attrs).isSome = true) →
        m.output.isSome = true →
        ascii_upper a.method ∈ (["GET", "POST", "PUT", "DELETE", "PATCH"] : List String) →
        (api_transform struct_name [m]).isOk = true) := by
  constructor
  · intro s h
    cases hp : h.params.filter (fun p => p.kind == ParamKind.Path) with
    | nil =>
      simp [generate_axum_handler, hp, is_json_extractor, List.filter_append,
        filter_json_map_query, filter_json_map_json]
    | cons p rest =>
      cases rest with
      | nil =>
        simp [generate_axum_handler, hp, is_json_extractor, List.filter_append,
          filter_json_map_query, filter_json_map_json]
      | cons q rest2 =>
        simp [generate_axum_handler, hp, is_json_extractor, List.filter_append,
          filter_json_map_query, filter_json_map_json]
  · intro s m a ha hann hout hsupp
    obtain ⟨ty, hty⟩ := Option.isSome_iff_exists.mp hout
    obtain ⟨h, hok, _, hmethod, _, _, _⟩ := parse_handler_ok m a ty ha hann hty
    obtain ⟨f, hf⟩ := method_routing_fn_ok (ascii_upper a.method) hsupp
    have hmfn : method_routing_fn h.method = Except.ok f := by rw [hmethod]; exact hf
    have hmap : parse_all [m] = Except.ok [some h] := by simp [parse_all, hok]
    have hrouter : generate_router [h] =
        Except.ok [{ route_path := path_to_axum h.path, method_fn := f,
                     handler_fn_name := "__axum_handler_" ++ h.fn_name }] := by
      simp [generate_router, hmfn]
    simp [api_transform, hmap, hrouter, Except.isOk, Except.toBool]

/-- A raw method declaring two Body-role parameters. -/
def raw_two_bodies : RawMethod :=
  { fn_name := "create_pair"
    api_handler := some ⟨"POST", "/pairs"⟩
    params := [⟨"first", ty_update_req, ["body"]⟩, ⟨"second", ty_update_req, ["body"]⟩]
    output := some ty_apiresult_unit }

/-- The `ParsedHandler` the generator produces for `raw_two_bodies`. -/
def parsed_two_bodies : ParsedHandler :=
  { fn_name := "create_pair"
    method := "POST"
    path := "/pairs"
    params := [⟨"first", ty_update_req, ParamKind.Body⟩,
               ⟨"second", ty_update_req, ParamKind.Body⟩]
    return_type := ty_apiresult_unit }

/-- **C2, counterexample.** A method declaring two Body-role parameters
is not rejected: parsing succeeds, the whole transform emits an artifact
(no generation-time diagnostic), and the generated handler contains two
JSON extractors. -/
theorem multiple_body_params_counterexample :
    parse_handler raw_two_bodies = Except.ok (some parsed_two_bodies) ∧
    (api_transform "App" [raw_two_bodies]).isOk = true ∧
    ((generate_axum_handler "App" parsed_two_bodies).extractors.filter
        is_json_extractor).length = 2 := by
  refine ⟨rfl, ?_, rfl⟩
  decide

/-- Closed witness for C2 (amended): the two-body method generates an
artifact. -/
theorem multiple_body_params_not_rejected_witness :
    (api_transform "App" [raw_two_bodies]).isOk = true :=
  multiple_body_params_not_rejected.2 "App" raw_two_bodies ⟨"POST", "/pairs"⟩ rfl
    (by simp [raw_two_bodies, take_param_attr]) rfl (by decide)

/-! ### C5: client URL building -/

/-- The `UserId` type. -/
def ty_user_id : RustType := RustType.path [Segment.mk "UserId" PathArguments.noArgs]

/-- The `PostId` type. -/
def ty_post_id : RustType := RustType.path [Segment.mk "PostId" PathArguments.noArgs]

/-- The `MyResult<Post>` return type. -/
def ty_myresult_post : RustType :=
  RustType.path [Segment.mk "MyResult"
    (PathArguments.angleBracketed
      [GenericArg.typeArg (RustType.path [Segment.mk "Post" PathArguments.noArgs])])]

/-- `get_user_post` with Path-role parameters declared in the same order
as the template's placeholders (the spec's own example). -/
def gup_handler : ParsedHandler :=
  { fn_name := "get_user_post"
    method := "GET"
    path := "/users/{user_id}/posts/{post_id}"
    params := [⟨"user_id", ty_user_id, ParamKind.Path⟩,
               ⟨"post_id", ty_post_id, ParamKind.Path⟩]
    return_type := ty_myresult_post }

/-- The same method with its two Path-role parameters declared in the
opposite order of the template's placeholders. -/
def gup_swapped : ParsedHandler :=
  { fn_name := "get_user_post"
    method := "GET"
    path := "/users/{user_id}/posts/{post_id}"
    params := [⟨"post_id", ty_post_id, ParamKind.Path⟩,
               ⟨"user_id", ty_user_id, ParamKind.Path⟩]
    return_type := ty_myresult_post }

/-- The runtime path-argument values used in the C5 statements:
`user_id = 42` and `post_id = 7` (rendered through `Display`). -/
def gup_vals : String → String := fun n => if n == "user_id" then "42" else "7"

/-- **C5, counterexample.** With the Path-role parameters declared in
the order `post_id, user_id` against the template
`/users/{user_id}/posts/{post_id}`, the generated client resolves each
placeholder by name (Rust named format arguments) and produces
`/users/42/posts/7`, not the `/users/7/posts/42` demanded by
substitution in parameter declaration order. -/
theorem client_url_decl_order_counterexample :
    client_url (generate_client_method gup_swapped) "http://h" gup_vals (fun _ => "") =
      "http://h/users/42/posts/7" ∧
    spec_url_decl_order "http://h" gup_swapped.path ["7", "42"] =
      "http://h/users/7/posts/42" ∧
    client_url (generate_client_method gup_swapped) "http://h" gup_vals (fun _ => "") ≠
      spec_url_decl_order "http://h" gup_swapped.path ["7", "42"] := by
  refine ⟨by decide, by decide, by decide⟩

/-- **C5, amended.** The generated client builds the request URL by
substituting the Path-role argument values into the template's
placeholders matched by parameter name (Rust named format arguments),
which coincides with declaration order whenever the k-th declared Path
parameter names the k-th placeholder — as in the spec's
`get_user_post(user_id, post_id)` example, yielding
`<base>/users/42/posts/7` — and is insensitive to permuting the
declaration order; when a Query-role argument exists its URL-encoding is
appended after `?` only if the encoded string is non-empty, and an empty
encoding leaves the URL without a trailing `?`. -/
theorem client_url_building :
    (client_url (generate_client_method gup_handler) "http://h" gup_vals (fun _ => "") =
      "http://h/users/42/posts/7") ∧
    (∀ (cm : ClientMethod) (base : String) (pv : String → String) (qe : String → String),
      (cm.query_arg = Option.none → client_url cm base pv qe = client_base_url cm base pv) ∧
      (∀ q, cm.query_arg = some q →
        ((qe q).isEmpty = true → client_url cm base pv qe = client_base_url cm base pv) ∧
        ((qe q).isEmpty = false →
          client_url cm base pv qe = client_base_url cm base pv ++ "?" ++ qe q))) ∧
    (client_base_url (generate_client_method gup_swapped) "http://h" gup_vals =
      client_base_url (generate_client_method gup_handler) "http://h" gup_vals) := by
  refine ⟨by decide, ?_, by decide⟩
  intro cm base pv qe
  constructor
  · intro hnone
    simp [client_url, hnone]
  · intro q hq
    constructor
    · intro he
      simp [client_url, hq, he]
    · intro he
      simp [client_url, hq, he]

/-- The `Pagination` query type. -/
def ty_pagination : RustType :=
  RustType.path [Segment.mk "Pagination" PathArguments.noArgs]

/-- A handler with one Path-role and one Query-role parameter, like
`list_user_posts` in the macro crate's tests. -/
def h_with_query : ParsedHandler :=
  { fn_name := "list_user_posts"
    method := "GET"
    path := "/users/{id}/posts"
    params := [⟨"id", ty_i32, ParamKind.Path⟩,
               ⟨"pagination", ty_pagination, ParamKind.Query⟩]
    return_type := ty_myresult_post }

/-- Closed witness for C5 (amended): a non-empty query encoding is
appended after `?`. -/
theorem client_url_building_witness :
    client_url (generate_client_method h_with_query) "http://h" (fun _ => "5")
        (fun _ => "page=2") =
      client_base_url (generate_client_method h_with_query) "http://h" (fun _ => "5")
        ++ "?" ++ "page=2" :=
  ((client_url_building.2.1 (generate_client_method h_with_query) "http://h"
      (fun _ => "5") (fun _ => "page=2")).2 "pagination" rfl).2 rfl

/-! ### C9: multiple Query-role parameters -/

/-- Whether an extractor is a query extractor. -/
def is_query_extractor : Extractor → Bool
  | Extractor.query _ _ => true
  | _ => false

/-- Query extractors all pass the query filter. -/
theorem filter_query_map_query (l : List HandlerParam) :
    (l.map (fun p => Extractor.query p.name p.ty)).filter is_query_extractor =
      l.map (fun p => Extractor.query p.name p.ty) := by
  induction l with
  | nil => rfl
  | cons x t ih => simp [is_query_extractor, ih]

/-- JSON extractors never pass the query filter. -/
theorem filter_query_map_json (l : List HandlerParam) :
    (l.map (fun p => Extractor.json p.name p.ty)).filter is_query_extractor = [] := by
  induction l with
  | nil => rfl
  | cons x t ih => simp [is_query_extractor, ih]

/-- The generated handler extracts every Query-role parameter: its query
extractors are exactly one per Query-role parameter, in declaration
order. -/
theorem generate_axum_handler_query_extractors (s : String) (h : ParsedHandler) :
    (generate_axum_handler s h).extractors.filter is_query_extractor =
      (h.params.filter (fun p => p.kind == ParamKind.Query)).map
        (fun p => Extractor.query p.name p.ty) := by
  cases hp : h.params.filter (fun p => p.kind == ParamKind.Path) with
  | nil =>
    simp [generate_axum_handler, hp, is_query_extractor, List.filter_append,
      filter_query_map_query, filter_query_map_json]
  | cons p rest =>
    cases rest with
    | nil =>
      simp [generate_axum_handler, hp, is_query_extractor, List.filter_append,
        filter_query_map_query, filter_query_map_json]
    | cons q rest2 =>
      simp [generate_axum_handler, hp, is_query_extractor, List.filter_append,
        filter_query_map_query, filter_query_map_json]

/-- `getLast?` of a cons, expressed by matching on the tail. -/
theorem getLast?_cons_eq {α : Type} (x : α) (l : List α) :
    (x :: l).getLast? =
      (match l.getLast? with
       | some y => some y
       | Option.none => some x) := by
  induction l generalizing x with
  | nil => rfl
  | cons b t ih =>
    rw [List.getLast?_cons_cons, ih b]
    cases hl : t.getLast? <;> simp

/-- The client parameter loop records every parameter as a client
function parameter, in declaration order. -/
theorem client_params_fold_names (l : List HandlerParam) (acc : ClientParamAcc) :
    ((l.foldl client_param_step acc).fn_params).map (fun p => p.name) =
      acc.fn_params.map (fun p => p.name) ++ l.map (fun p => p.name) := by
  induction l generalizing acc with
  | nil => simp
  | cons x t ih =>
    rw [List.foldl_cons, ih]
    cases hk : x.kind <;> simp [client_param_step, hk]

/-- The client parameter loop's `query_arg` is overwritten by each
Query-role parameter, so it ends as the last-declared one. -/
theorem client_params_fold_query_arg (l : List HandlerParam) (acc : ClientParamAcc) :
    (l.foldl client_param_step acc).query_arg =
      (match (l.filter (fun p => p.kind == ParamKind.Query)).getLast? with
       | some p => some p.name
       | Option.none => acc.query_arg) := by
  induction l generalizing acc with
  | nil => simp
  | cons x t ih =>
    rw [List.foldl_cons, ih]
    cases hk : x.kind with
    | Body => simp [client_param_step, hk, List.filter_cons]
    | Path => simp [client_param_step, hk, List.filter_cons]
    | Query =>
      have hfc : (x :: t).filter (fun p => p.kind == ParamKind.Query)
          = x :: t.filter (fun p => p.kind == ParamKind.Query) := by
        simp [List.filter_cons, hk]
      simp only [client_param_step, hk]
      rw [hfc, getLast?_cons_eq]
      cases hl : (t.filter (fun p => p.kind == ParamKind.Query)).getLast? <;> simp [hl]

/-- **C9.** For a method with two or more Query-role parameters: the
generated client method accepts every declared parameter as an argument;
the generated server handler extracts every Query-role parameter; the
captured client query argument is only the last-declared Query
parameter, whose non-empty encoding is what the URL carries after `?`;
and the issued request is unchanged by the encodings of all
earlier Query arguments. -/
theorem multiple_query_params_behavior :
    ∀ (struct_name : String) (h : ParsedHandler),
      2 ≤ (h.params.filter (fun p => p.kind == ParamKind.Query)).length →
      ((generate_client_method h).fn_params.map (fun p => p.name) =
          h.params.map (fun p => p.name)) ∧
      ((generate_axum_handler struct_name h).extractors.filter is_query_extractor =
          (h.params.filter (fun p => p.kind == ParamKind.Query)).map
            (fun p => Extractor.query p.name p.ty)) ∧
      (∀ p, (h.params.filter (fun p => p.kind == ParamKind.Query)).getLast? = some p →
        (generate_client_method h).query_arg = some p.name ∧
        (∀ base pv qe, (qe p.name).isEmpty = false →
          client_url (generate_client_method h) base pv qe =
            client_base_url (generate_client_method h) base pv ++ "?" ++ qe p.name) ∧
        (∀ base pv bv qe qe', qe p.name = qe' p.name →
          client_request (generate_client_method h) base pv qe bv =
            client_request (generate_client_method h) base pv qe' bv)) := by
  intro s h _
  refine ⟨?_, generate_axum_handler_query_extractors s h, ?_⟩
  · have := client_params_fold_names h.params ⟨[], [], Option.none, Option.none⟩
    simpa [generate_client_method, client_params] using this
  · intro p hp
    have hq : (generate_client_method h).query_arg = some p.name := by
      have := client_params_fold_query_arg h.params ⟨[], [], Option.none, Option.none⟩
      simp only [generate_client_method, client_params]
      rw [this, hp]
    refine ⟨hq, ?_, ?_⟩
    · intro base pv qe he
      simp [client_url, hq, he]
    · intro base pv bv qe qe' hagree
      simp [client_request, client_url, hq, hagree]

/-- A handler declaring two Query-role parameters. -/
def h_two_queries : ParsedHandler :=
  { fn_name := "search"
    method := "GET"
    path := "/search"
    params := [⟨"filters", ty_pagination, ParamKind.Query⟩,
               ⟨"paging", ty_pagination, ParamKind.Query⟩]
    return_type := ty_myresult_post }

/-- Closed witness for C9: with `filters` and `paging` both Query-role,
only `paging` (the last) is captured as the client query argument. -/
theorem multiple_query_params_behavior_witness :
    (generate_client_method h_two_queries).query_arg = some "paging" :=
  ((multiple_query_params_behavior "App" h_two_queries (by decide)).2.2
    ⟨"paging", ty_pagination, ParamKind.Query⟩ rfl).1

end Pictureframe
